import Mathlib

/-!
Verification development for the KGrip measurement plugin.

The embedding below is a shallow model of the two source modules the claims
are about:

* `src/queue.js` — the `JobQueue` class (priority queue with concurrency
  limit, retries with exponential backoff, pause/resume);
* `src/gauge-segmented.js` — the Electron main-process controller
  (`checkResponse` baseline debounce and measurement branch, `endAlgorithm`
  teardown, `sendCommand`, `startMeasure`, `stopMeasure`, and the
  measurement-timeout callback together with `checkError`).

JS numbers that hold raw 16-bit sample magnitudes are modelled as `Nat`,
decimal values produced by the big.js pipeline as `ℚ` (big.js is exact
decimal arithmetic, a subset of `ℚ`), and timer handles as explicit option
values carrying their absolute deadline plus a `fired` flag (Node's
`_destroyed`).  Time is in integer milliseconds.
-/

/-! ## Part 1: the JobQueue (`src/queue.js`) -/

/-- Job status, `src/queue.js` line 50 and transitions in `_process` /
`_executeJob`. -/
inductive JStatus where
  | pending
  | processing
  | completed
  | failed
  | delayed
deriving DecidableEq, Repr

/-- One queue job: the fields of the object literal built by `add`
(`src/queue.js` lines 40‑51) that the claims depend on.  `seq` records the
order in which jobs are inserted into the `jobs` array (`add` time for
undelayed jobs, readiness time for delayed ones); the implementation's
`createdAt`/insertion order plays this role. -/
structure QJob where
  id : Nat
  priority : Int
  seq : Nat
  status : JStatus
deriving DecidableEq, Repr

/-- `_insertJob` (`src/queue.js` lines 73‑85): scan for the first queued job
whose priority is strictly below the new job's and splice the new job in
before it; otherwise push to the back. -/
def insertJob (j : QJob) : List QJob → List QJob
  | [] => [j]
  | hd :: tl =>
      if hd.priority < j.priority then j :: hd :: tl
      else hd :: insertJob j tl

/-- Dispatch selection in `_process` (`src/queue.js` line 95):
`this.jobs.find(j => j.status === 'pending')`. -/
def firstPending (l : List QJob) : Option QJob :=
  l.find? (fun k => decide (k.status = JStatus.pending))

/-- Priority-then-FIFO dispatch order: `a` dispatches before `b` when `a`
has strictly higher priority, or equal priority and earlier insertion. -/
def jobR (a b : QJob) : Prop :=
  b.priority < a.priority ∨ (a.priority = b.priority ∧ a.seq < b.seq)

instance (a b : QJob) : Decidable (jobR a b) :=
  inferInstanceAs (Decidable (_ ∨ _))

/-- Mutable queue state: the `jobs` array, the `running` counter and the
`paused` flag of a `JobQueue` instance (`src/queue.js` lines 13‑15). -/
structure QState where
  jobs : List QJob
  running : Nat
  paused : Bool
deriving DecidableEq, Repr

/-- Number of jobs currently in `Processing` status. -/
def processingCount (s : QState) : Nat :=
  s.jobs.countP (fun j => decide (j.status = JStatus.processing))

/-- Fresh queue (`constructor`, `src/queue.js` lines 8‑23). -/
def initQState : QState := ⟨[], 0, false⟩

/-- One observable transition of a `JobQueue` with concurrency limit `c`.
Each constructor is one atomic section of `src/queue.js` (atomic because the
code between two `await` suspension points runs without interleaving on the
Node event loop):

* `add` — `add` with `delay = 0`, or the delay timer of a delayed job
  firing: `_insertJob` a pending job (lines 53‑64);
* `dispatch` — the body of `_process` up to the `await` (lines 90‑101):
  guard `!paused && running < concurrency`, pick the first pending job,
  mark it `processing`, increment `running`;
* `finishRemove` — `_executeJob` resolving with success, permanent failure
  (`attempts ≥ maxAttempts`) or missing handler: terminal status, job
  removed, then `running--` in the `finally` (lines 102‑109, 115‑125,
  142‑147, 162‑168);
* `failRetry` — `_executeJob` failing with attempts left: the job is set
  back to `pending` in place, then `running--` (lines 149‑161 plus the
  `finally`);
* `pause` / `resume` — lines 185‑199. -/
inductive QStep (c : Nat) : QState → QState → Prop
  | add (s : QState) (j : QJob) (hj : j.status = JStatus.pending) :
      QStep c s ⟨insertJob j s.jobs, s.running, s.paused⟩
  | dispatch (l₁ l₂ : List QJob) (j : QJob) (r : Nat)
      (hr : r < c) (hj : j.status = JStatus.pending) :
      QStep c ⟨l₁ ++ j :: l₂, r, false⟩
        ⟨l₁ ++ { j with status := JStatus.processing } :: l₂, r + 1, false⟩
  | finishRemove (l₁ l₂ : List QJob) (j : QJob) (r : Nat) (p : Bool)
      (hj : j.status = JStatus.processing) :
      QStep c ⟨l₁ ++ j :: l₂, r + 1, p⟩ ⟨l₁ ++ l₂, r, p⟩
  | failRetry (l₁ l₂ : List QJob) (j : QJob) (r : Nat) (p : Bool)
      (hj : j.status = JStatus.processing) :
      QStep c ⟨l₁ ++ j :: l₂, r + 1, p⟩
        ⟨l₁ ++ { j with status := JStatus.pending } :: l₂, r, p⟩
  | pause (s : QState) : QStep c s ⟨s.jobs, s.running, true⟩
  | resume (s : QState) : QStep c s ⟨s.jobs, s.running, false⟩

/-- States reachable from a fresh queue through queue operations. -/
inductive QReach (c : Nat) : QState → Prop
  | init : QReach c initQState
  | step {s t : QState} : QReach c s → QStep c s t → QReach c t

/-! ### Deterministic retry trace (`_executeJob` failure path)

The following small simulation replays, for a queue with `concurrency = 1`
and a single job whose handler rejects immediately, the exact synchronous
chain the code executes: `_process` marks the job processing and awaits
`_executeJob`; the handler rejects; the `catch` block (lines 149‑168)
either sets the job back to `pending` and schedules
`setTimeout(() => this._process(), retryDelay * 2 ** (attempts - 1))`, or
marks it failed and removes it; then the `finally` block (lines 106‑109)
immediately calls `this._process()` again, which finds the job pending and
starts the next attempt *in the same event-loop turn*, i.e. at the same
millisecond, before any backoff timer can fire.  `now` stays 0 throughout;
`scheduledScans` collects the absolute fire times of the backoff timers the
code registers. -/

/-- State of the single-job failing run. -/
structure SimState where
  attempts : Nat
  status : JStatus
  inQueue : Bool
  now : Nat
  attemptLog : List Nat
  scheduledScans : List Nat
deriving DecidableEq, Repr

/-- Initial state right after `add`: job pending, in the queue, time 0. -/
def initSim : SimState :=
  ⟨0, JStatus.pending, true, 0, [], []⟩

/-- One `_process` → `_executeJob` round for the always-failing handler
(`maxAttempts = N`, `retryDelay = r`). -/
def failStep (N r : Nat) (st : SimState) : SimState :=
  if st.status = JStatus.pending ∧ st.inQueue then
    let a := st.attempts + 1
    if a < N then
      { st with
          attempts := a
          attemptLog := st.attemptLog ++ [st.now]
          status := JStatus.pending
          scheduledScans := st.scheduledScans ++ [st.now + r * 2 ^ (a - 1)] }
    else
      { st with
          attempts := a
          attemptLog := st.attemptLog ++ [st.now]
          status := JStatus.failed
          inQueue := false }
  else st

/-- Iterate the synchronous `finally`-driven chain `k` times. -/
def failChain (N r : Nat) : Nat → SimState → SimState
  | 0, st => st
  | k + 1, st => failChain N r k (failStep N r st)

/-- The full run: the chain terminates after at most `N` rounds because the
job leaves the queue on its `N`-th attempt. -/
def failRun (N r : Nat) : SimState := failChain N r N initSim

/-! ## Part 2: the weight pipeline (`src/gauge-segmented.js` lines 941‑947) -/

/-- big.js `round(dp)` with the default rounding mode `ROUND_HALF_UP`
(round half away from zero). -/
def bigRoundHalfUp (dp : Nat) (x : ℚ) : ℚ :=
  if 0 ≤ x then ((⌊x * 10 ^ dp + 1 / 2⌋ : ℤ) : ℚ) / 10 ^ dp
  else -(((⌊(-x) * 10 ^ dp + 1 / 2⌋ : ℤ) : ℚ) / 10 ^ dp)

/-- The weight formula of `checkResponse`:
`new Big(baseline).minus(value).times(coef).abs().round(config.bigRound)`.
`baseline` and `value` are decoded 16-bit magnitudes, `coef` the decimal
coefficient, `dp` is `config.bigRound`. -/
def computeWeight (baseline : Nat) (coef : ℚ) (dp : Nat) (value : Nat) : ℚ :=
  bigRoundHalfUp dp |((baseline : ℚ) - (value : ℚ)) * coef|

/-! ## Part 3: the baseline debounce (`src/gauge-segmented.js` lines 895‑936)

The `first` branch of `checkResponse` manipulates two module-level timer
variables, `timeoutForStartSampling` (the confirm-timer, fires after
`config.baselineTimeSetting` ms) and `timeoutForCancelSamplingTimeout`
(the cancel-timer, fires after `config.baselineTimeNotSet` ms).  A Node
`Timeout` object is modelled by its absolute deadline plus the `_destroyed`
flag (`fired`); `clearTimeout` followed by overwriting the variable is
modelled by replacing the option value.  Deadlines are absolute
milliseconds. -/

/-- A scheduled Node timer: absolute deadline and the `_destroyed` flag,
which becomes true once the callback has run. -/
structure BTimer where
  deadline : Nat
  fired : Bool
deriving DecidableEq, Repr

/-- Truthiness of `timer && !timer._destroyed`: the timer exists and has
not yet fired. -/
def timerPending : Option BTimer → Bool
  | none => false
  | some tm => !tm.fired

/-- The guard `!timeoutForStartSampling || timeoutForStartSampling._destroyed`
of the first branch (line 902). -/
def tfssReusable : Option BTimer → Bool
  | none => true
  | some tm => tm.fired

/-- Deadline of the cancel-timer (0 when the variable is unset). -/
def cancelDeadline (o : Option BTimer) : Nat :=
  match o with
  | none => 0
  | some tm => tm.deadline

/-- Baseline-phase configuration: `config.baseline` (the threshold),
`config.baselineTimeSetting` (settle ms), `config.baselineTimeNotSet`
(drop ms). -/
structure BConfig where
  baseline : Nat
  baselineTimeSetting : Nat
  baselineTimeNotSet : Nat
deriving DecidableEq, Repr

/-- Baseline-detection messages emitted through `emitMessage`. -/
inductive BMsg where
  | baselineOk
  | baselineStop
deriving DecidableEq, Repr

/-- The module-level state the `first` branch reads and writes:
the two timer variables, the sample value captured by the pending
confirm-timer's closure, the `first` flag, the `baseline` value and the
ordered list of emitted baseline messages. -/
structure BState where
  timeoutForStartSampling : Option BTimer
  timeoutForCancelSamplingTimeout : Option BTimer
  candidate : Nat
  first : Bool
  baseline : Nat
  msgs : List BMsg
deriving DecidableEq, Repr

/-- State at the start of a measurement cycle: no timers, `first = true`. -/
def initB : BState := ⟨none, none, 0, true, 0, []⟩

/-- The confirm-timer callback (lines 909‑922): set `baseline` to the
captured sample value, leave the baseline phase (`first = false`), emit
`baseline_ok`.  (The callback also resets `weightMax` and shows the
window; those effects live outside `BState`.) -/
def fireConfirm (st : BState) : BState :=
  { st with
      baseline := st.candidate
      first := false
      msgs := st.msgs ++ [BMsg.baselineOk]
      timeoutForStartSampling :=
        st.timeoutForStartSampling.map (fun tm => { tm with fired := true }) }

/-- The cancel-timer callback (lines 930‑935): `clearTimeout` the
confirm-timer and set its variable to `undefined`, emit `baseline_stop`. -/
def fireCancel (st : BState) : BState :=
  { st with
      timeoutForStartSampling := none
      msgs := st.msgs ++ [BMsg.baselineStop]
      timeoutForCancelSamplingTimeout :=
        st.timeoutForCancelSamplingTimeout.map (fun tm => { tm with fired := true }) }

/-- Fire every timer due at or before `t`, in deadline order.  When both
timers are pending, the confirm-timer was necessarily scheduled first
(the code schedules a confirm-timer only after clearing the cancel-timer
variable), so Node's insertion-order tie break fires the confirm-timer
first on equal deadlines; firing the cancel-timer clears the confirm-timer,
after which nothing further is due. -/
def advanceTo (st : BState) (t : Nat) : BState :=
  if timerPending st.timeoutForStartSampling = true ∧
      (match st.timeoutForStartSampling with
        | some tm => tm.deadline | none => 0) ≤ t ∧
      (¬ (timerPending st.timeoutForCancelSamplingTimeout = true ∧
            cancelDeadline st.timeoutForCancelSamplingTimeout ≤ t) ∨
        (match st.timeoutForStartSampling with
          | some tm => tm.deadline | none => 0) ≤
          cancelDeadline st.timeoutForCancelSamplingTimeout) then
    let st1 := fireConfirm st
    if timerPending st1.timeoutForCancelSamplingTimeout = true ∧
        cancelDeadline st1.timeoutForCancelSamplingTimeout ≤ t then
      fireCancel st1
    else st1
  else if timerPending st.timeoutForCancelSamplingTimeout = true ∧
      cancelDeadline st.timeoutForCancelSamplingTimeout ≤ t then
    fireCancel st
  else st

/-- Deadline of the confirm-timer (0 when unset). -/
def confirmDeadline (st : BState) : Nat :=
  match st.timeoutForStartSampling with
  | some tm => tm.deadline
  | none => 0

/-- The `first` branch of `checkResponse` for one decoded sample `v`
arriving at time `t` (lines 895‑936):

* if `v > config.baseline` and the confirm-timer variable is unset or
  destroyed: clear the cancel-timer, set its variable to `undefined`, and
  schedule a fresh confirm-timer capturing `v`;
* else if `v < config.baseline` and the cancel-timer variable is unset
  (note: a *fired* cancel-timer object is still truthy and blocks this
  branch): schedule a cancel-timer;
* otherwise do nothing.

When `first` is false the sample goes to the measurement branch instead
(modelled separately as `checkResponseMeasure`). -/
def checkResponseFirst (cfg : BConfig) (t v : Nat) (st : BState) : BState :=
  if st.first = false then st
  else if cfg.baseline < v ∧ tfssReusable st.timeoutForStartSampling = true then
    { st with
        timeoutForCancelSamplingTimeout := none
        timeoutForStartSampling := some ⟨t + cfg.baselineTimeSetting, false⟩
        candidate := v }
  else if v < cfg.baseline ∧ st.timeoutForCancelSamplingTimeout = none then
    { st with
        timeoutForCancelSamplingTimeout := some ⟨t + cfg.baselineTimeNotSet, false⟩ }
  else st

/-- Process a time-stamped sample stream (strictly increasing times): at
each arrival, first fire the timers that are due (Node runs the timers
phase before delivering poll-phase serial data), then run the sample
handler. -/
def runFrom (cfg : BConfig) (st : BState) (samples : List (Nat × Nat)) : BState :=
  samples.foldl (fun s p => checkResponseFirst cfg p.1 p.2 (advanceTo s p.1)) st

/-- After the stream ends, let the remaining timers fire (deadline order,
confirm-timer first on ties as justified at `advanceTo`). -/
def finishB (st : BState) : BState :=
  if timerPending st.timeoutForStartSampling = true ∧
      (timerPending st.timeoutForCancelSamplingTimeout = false ∨
        confirmDeadline st ≤ cancelDeadline st.timeoutForCancelSamplingTimeout) then
    let st1 := fireConfirm st
    if timerPending st1.timeoutForCancelSamplingTimeout = true then fireCancel st1
    else st1
  else if timerPending st.timeoutForCancelSamplingTimeout = true then fireCancel st
  else st

/-- Run a sample stream from an arbitrary baseline-phase state to
quiescence. -/
def runBaselineFrom (cfg : BConfig) (st : BState) (samples : List (Nat × Nat)) :
    BState :=
  finishB (runFrom cfg st samples)

/-- Run a sample stream from the start of the cycle to quiescence. -/
def runBaseline (cfg : BConfig) (samples : List (Nat × Nat)) : BState :=
  runBaselineFrom cfg initB samples

/-- Stream predicate for claim C1: every below-threshold sample is followed
by an above-threshold sample strictly within `baselineTimeNotSet` ms, so
the stream contains no uninterrupted below-threshold run lasting
`baselineTimeNotSet` or longer. -/
def everyDropInterrupted (cfg : BConfig) : List (Nat × Nat) → Bool
  | [] => true
  | (t, v) :: rest =>
      (if v < cfg.baseline then
        rest.any (fun q => decide (cfg.baseline < q.2) &&
          decide (q.1 < t + cfg.baselineTimeNotSet))
      else true)
      && everyDropInterrupted cfg rest

/-- Counterexample configuration: threshold 100, settle 10 ms, drop 3 ms. -/
def exC1Cfg : BConfig := ⟨100, 10, 3⟩

/-- Counterexample stream: an above-threshold sample at t=0 schedules the
confirm-timer; a single below-threshold sample at t=1 schedules the
cancel-timer; above-threshold samples at t=2 and t=3 interrupt the drop
well inside the 3 ms window. -/
def exC1Samples : List (Nat × Nat) := [(0, 200), (1, 50), (2, 200), (3, 200)]

/-! ## Part 4: the measurement branch (`src/gauge-segmented.js` lines 937‑995) -/

/-- Configuration consumed by the measurement branch. -/
structure MCfg where
  baseline : Nat
  coef : ℚ
  bigRound : Nat
  trigger : ℚ
  ceilWeight : ℚ
deriving Repr

/-- The measurement-phase flags and accumulators among the module-level
variables. -/
structure MeasState where
  startTimeoutMeasurement : Bool
  stopMeasurement : Bool
  weightArray : List ℚ
  weightMax : ℚ
deriving Repr

/-- Channel/display messages emitted through `emitMessage` (field
`message` of the payload).  `measureFinish` carries `avg` (`none` models
the JS `NaN` that `(0/0)` produces on an empty sample array), `max` and
the raw sample list. -/
inductive OutMsg where
  | deviceFound
  | timeout
  | appHide
  | appShow
  | measureSamplingOn
  | measureReceived (value : ℚ)
  | measureFinish (avg : Option ℚ) (max : ℚ) (raw : List ℚ)
deriving DecidableEq, Repr

/-- Weight computed for a decoded sample `v` under configuration `cfg`. -/
def stepWeight (cfg : MCfg) (v : Nat) : ℚ :=
  computeWeight cfg.baseline cfg.coef cfg.bigRound v

/-- The `else` (measurement) branch of `checkResponse` for one decoded
sample `v` (lines 937‑995):

* compute `weight` with the big.js pipeline;
* if `weight > config.trigger`: set `startTimeoutMeasurement` (the real
  code also schedules the `config.duration` measurement timer and clears
  the outer `algorithmTimeout`; the timer callback is modelled separately
  as `measureWindowElapsedEvents`); then, if `weight < config.ceilWeight`
  and the window has not elapsed (`!stopMeasurement`), update `weightMax`,
  push the weight and emit `measure_received`;
* samples with `weight ≤ config.trigger` fall through with no effect. -/
def checkResponseMeasure (cfg : MCfg) (st : MeasState) (v : Nat) :
    MeasState × List OutMsg :=
  let w := stepWeight cfg v
  if cfg.trigger < w then
    let st1 := { st with startTimeoutMeasurement := true }
    if w < cfg.ceilWeight ∧ st1.stopMeasurement = false then
      ({ st1 with
          weightMax := if st1.weightMax < w then w else st1.weightMax
          weightArray := st1.weightArray ++ [w] },
        [OutMsg.measureReceived w])
    else (st1, [])
  else (st, [])

/-- Counterexample configuration for claim C6: baseline 3500, coefficient
0.000123, 2-decimal rounding, trigger 0.8, ceiling 60 (the values the
source comments document). -/
def exC6Cfg : MCfg := ⟨3500, 123 / 1000000, 2, 4 / 5, 60⟩

/-- Counterexample state: capture window open (`startTimeoutMeasurement`
set, window not elapsed), nothing accepted yet. -/
def exC6St : MeasState := ⟨true, false, [], 0⟩

/-! ## Part 5: teardown and command paths (`src/gauge-segmented.js`) -/

/-- The five instrument commands (lines 463‑476). -/
inductive Cmd where
  | setCoef
  | getCoef
  | samplingOff
  | samplingOn
  | deviceOff
deriving DecidableEq, Repr

/-- Observable actions of the teardown/command paths, in program order:

* `emit m` — `emitMessage` with payload `m` (fanned out to the display
  callback and the ZeroMQ queue);
* `recordError code msg` — `tempFile.messages.push({code, message})`;
* `sendCmd c` — a successful `port.write` of command `c`;
* `closePort` — `port.close()` plus `port = undefined`;
* `clearDeadline` — `clearTimeout(algorithmTimeout)`;
* `clearAllTimers` — the five `clearTimeout`/`clearInterval` calls at the
  top of `stopMeasure`;
* `scheduleDeadline` — `algorithmTimeout = setTimeout(..., config.timeout)`;
* `resetState` — the block of field resets in `endAlgorithm`
  (`first = true`, flags, `weightArray.length = 0`, `baseline = 0`,
  `measureStarted = false`; detailed as `endAlgorithmState`);
* `writeTemp` — the `fs.writeFile("./temp.json", ...)` call;
* `logPortNotOpened` — the `log(1, "Port Not Opened", command)` branch of
  `sendCommand` when no port handle is held. -/
inductive TEvent where
  | emit (m : OutMsg)
  | recordError (code : Nat) (msg : String)
  | sendCmd (c : Cmd)
  | closePort
  | clearDeadline
  | clearAllTimers
  | scheduleDeadline
  | resetState
  | writeTemp
  | logPortNotOpened
deriving DecidableEq, Repr

/-- The error map built in `endAlgorithm` (lines 484‑494): codes 1‑7 carry
fixed messages; a code above 7 carries the caller-supplied message. -/
def errorMessageFor (code : Nat) (custom : String) : String :=
  if code = 1 then "Error on temp.json file"
  else if code = 2 then "No device Found"
  else if code = 3 then "Generic Error on device"
  else if code = 4 then "CK Error"
  else if code = 5 then "Generic Error on plugin"
  else if code = 6 then "Timeout, check if the device is connected and retry"
  else if code = 7 then "No data or invalid data"
  else custom

/-- `endAlgorithm(error, errorMessage)` (lines 482‑530) as its sequence of
observable actions, given whether a port handle is currently held.  With an
error: push the error record, and if a port is held send `DeviceOff`, close
and release it.  Always: reset the session fields.  Then, only if a port is
still held (which requires the no-error case), send `SamplingOff`.  Finally
write `temp.json`.  `endAlgorithm` emits no channel/display message itself.
(The nested `sendCommand(DeviceOff)` is modelled as its successful write;
its own error path would re-enter `endAlgorithm`.) -/
def endAlgorithmEvents (error : Option Nat) (custom : String) (portOpen : Bool) :
    List TEvent :=
  TEvent.clearDeadline ::
    ((match error with
      | some e =>
          TEvent.recordError e (errorMessageFor e custom) ::
            (if portOpen then [TEvent.sendCmd Cmd.deviceOff, TEvent.closePort] else [])
      | none => [])
    ++ [TEvent.resetState]
    ++ (match error with
        | some _ => []
        | none => if portOpen then [TEvent.sendCmd Cmd.samplingOff] else [])
    ++ [TEvent.writeTemp])

/-- `sendCommand(command)` (lines 536‑548): with a port handle, a write that
either succeeds (`sendCmd`) or fails, in which case the write callback runs
`endAlgorithm(3)`; with no port handle, nothing but a log line. -/
def sendCommandEvents (portOpen : Bool) (c : Cmd) (writeErr : Bool) :
    List TEvent :=
  if portOpen then
    if writeErr then endAlgorithmEvents (some 3) "" true
    else [TEvent.sendCmd c]
  else [TEvent.logPortNotOpened]

/-- The `algorithmTimeout` callback set by `startDetectDevice`
(lines 782‑788): if no device path was ever found, `endAlgorithm(2)`
(device not found) — with no channel/display message; otherwise emit
`timeout` and `endAlgorithm(6)`. -/
def deadlineTimerEvents (socketPathKnown portOpen : Bool) : List TEvent :=
  if socketPathKnown = false then endAlgorithmEvents (some 2) "" portOpen
  else TEvent.emit OutMsg.timeout :: endAlgorithmEvents (some 6) "" portOpen

/-- The enumeration-error path of the `SerialPort.list()` poll
(lines 811‑814): `endAlgorithm(5)`, no channel/display message. -/
def enumErrorEvents (portOpen : Bool) : List TEvent :=
  endAlgorithmEvents (some 5) "" portOpen

/-- The `algorithmTimeout` callback set by `startMeasure` (lines 1021‑1025):
emit `timeout`, then `endAlgorithm(6)`. -/
def startMeasureTimeoutEvents (portOpen : Bool) : List TEvent :=
  TEvent.emit OutMsg.timeout :: endAlgorithmEvents (some 6) "" portOpen

/-- `startMeasure` itself (lines 1019‑1029): arm the deadline timer, emit
`measureSamplingOn`, and send `SamplingOn` through `sendCommand`. -/
def startMeasureEvents (portOpen : Bool) : List TEvent :=
  TEvent.scheduleDeadline :: TEvent.emit OutMsg.measureSamplingOn ::
    sendCommandEvents portOpen Cmd.samplingOn false

/-- `stopMeasure` (lines 1034‑1065): clear every live timer; if a port is
held, (after its nested delays) send `DeviceOff` and close the port.  It
resets no session field and emits nothing itself. -/
def stopMeasureEvents (portOpen : Bool) : List TEvent :=
  TEvent.clearAllTimers ::
    (if portOpen then [TEvent.sendCmd Cmd.deviceOff, TEvent.closePort] else [])

/-- The `measureStop` command case of the ZeroMQ listener (lines 696‑699):
`stopMeasure()` then `emitMessage({message: "app_hide"})`.  The port
shutdown inside `stopMeasure` is deferred behind timers, so the `app_hide`
emission precedes it. -/
def measureStopCommandEvents (portOpen : Bool) : List TEvent :=
  TEvent.clearAllTimers :: TEvent.emit OutMsg.appHide ::
    (if portOpen then [TEvent.sendCmd Cmd.deviceOff, TEvent.closePort] else [])

/-- `checkError(error, callback)` (lines 1003‑1012): the flag `"00"` means
no error; any other string is handed back as the error itself (with no
message).  Result: `none` for no error, `some flag` otherwise. -/
def checkError (error : String) : Option String :=
  if error = "00" then none else some error

/-- `weightArray.reduce((a,b) => a+b, 0) / weightArray.length`: `none`
models the `NaN` that JS produces for `0/0` on an empty array. -/
def avgOf (l : List ℚ) : Option ℚ :=
  if l = [] then none else some (l.sum / l.length)

/-- The `measurementTimeout` callback (lines 954‑981): set
`stopMeasurement`, run `checkError` on the hardcoded flag `"00"` (which
never reports an error), fill `outputData`, emit
`measure_finish{avg, max, rawMeasures}` and run `endAlgorithm()` with no
error.  The `checkError` failure branch — unreachable because the flag is
hardcoded — would run `endAlgorithm(error, errorMessage)` instead. -/
def measureWindowElapsedEvents (weightArray : List ℚ) (weightMax : ℚ)
    (portOpen : Bool) : List TEvent :=
  match checkError "00" with
  | some _ => endAlgorithmEvents (some 5) "" portOpen
  | none =>
      TEvent.emit (OutMsg.measureFinish (avgOf weightArray) weightMax weightArray) ::
        endAlgorithmEvents none "" portOpen

/-- Recognizer for `emit` events. -/
def isEmit : TEvent → Bool
  | TEvent.emit _ => true
  | _ => false

/-- Recognizer for `recordError` events. -/
def isRecordError : TEvent → Bool
  | TEvent.recordError _ _ => true
  | _ => false

/-- Number of channel/display messages in an action sequence. -/
def emitCount (l : List TEvent) : Nat := (l.filter isEmit).length

/-! ### Session-scoped fields across teardown (claim C9) -/

/-- The module-level session fields of `src/gauge-segmented.js`
(lines 382‑402): `first`, the measurement flags, `weightArray`, `baseline`,
`coef`, `weightMax`, `num`, `weight`, `measureStarted`, and whether a port
handle is held. -/
structure SessionState where
  first : Bool
  stopMeasurement : Bool
  startTimeoutMeasurement : Bool
  measureStarted : Bool
  weightArray : List ℚ
  baseline : Nat
  coef : ℚ
  weightMax : ℚ
  num : Nat
  weight : ℚ
  portOpen : Bool
deriving Repr

/-- The effect of `endAlgorithm(error)` on the session fields
(lines 482‑530): in the error branch the port handle is closed and
released; always `first = true`, `stopMeasurement = false`,
`startTimeoutMeasurement = false`, `weightArray.length = 0`,
`baseline = 0`, `measureStarted = false`.  `coef`, `weightMax`, `num`
and `weight` are not touched by any teardown path. -/
def endAlgorithmState (error : Option Nat) (st : SessionState) : SessionState :=
  let st1 :=
    if error.isSome && st.portOpen then { st with portOpen := false } else st
  { st1 with
      first := true
      stopMeasurement := false
      startTimeoutMeasurement := false
      weightArray := []
      baseline := 0
      measureStarted := false }

/-- Counterexample session for claim C9: mid-measurement state with a
coefficient read from the device. -/
def exC9Session : SessionState :=
  { first := false
    stopMeasurement := false
    startTimeoutMeasurement := true
    measureStarted := true
    weightArray := [1 / 2, 3 / 50]
    baseline := 3500
    coef := 123 / 1000000
    weightMax := 5
    num := 3500
    weight := 1 / 2
    portOpen := true }

/-- Recognizer for `sendCmd` events. -/
def isSendCmd : TEvent → Bool
  | TEvent.sendCmd _ => true
  | _ => false

/-! ## Helper lemmas -/

/-- `_insertJob` produces a permutation of pushing the job on the front. -/
theorem insertJob_perm (j : QJob) (l : List QJob) :
    List.Perm (insertJob j l) (j :: l) := by
  induction l with
  | nil => exact List.Perm.refl [j]
  | cons hd tl ih =>
    by_cases h : hd.priority < j.priority
    · simp [insertJob, h]
    · simp only [insertJob, if_neg h]
      exact (ih.cons hd).trans (List.Perm.swap j hd tl)

/-- Membership in the result of `_insertJob`. -/
theorem mem_insertJob {y j : QJob} {l : List QJob} :
    y ∈ insertJob j l ↔ y = j ∨ y ∈ l := by
  rw [(insertJob_perm j l).mem_iff, List.mem_cons]

/-- Preservation of the queue invariant by a single queue operation. -/
theorem qstep_inv {c : Nat} {s t : QState} (hst : QStep c s t)
    (ih1 : processingCount s = s.running) (ih2 : s.running ≤ c) :
    processingCount t = t.running ∧ t.running ≤ c := by
  cases hst with
  | add s j hj =>
    refine ⟨?_, ih2⟩
    unfold processingCount at ih1 ⊢
    rw [(insertJob_perm j s.jobs).countP_eq, List.countP_cons]
    simp [hj, ih1]
  | dispatch l₁ l₂ j r hrc hj =>
    unfold processingCount at ih1 ⊢
    simp [List.countP_append, List.countP_cons, hj] at ih1 ⊢
    omega
  | finishRemove l₁ l₂ j r p hj =>
    unfold processingCount at ih1 ⊢
    simp [List.countP_append, List.countP_cons, hj] at ih1 ih2 ⊢
    omega
  | failRetry l₁ l₂ j r p hj =>
    unfold processingCount at ih1 ⊢
    simp [List.countP_append, List.countP_cons, hj] at ih1 ih2 ⊢
    omega
  | pause s => exact ⟨ih1, ih2⟩
  | resume s => exact ⟨ih1, ih2⟩

/-- The reachability invariant of the queue: the number of processing jobs
always equals the `running` counter, which never exceeds the concurrency
limit. -/
theorem qreach_inv {c : Nat} {s : QState} (h : QReach c s) :
    processingCount s = s.running ∧ s.running ≤ c := by
  induction h with
  | init => exact ⟨rfl, Nat.zero_le c⟩
  | step hr hst ih => exact qstep_inv hst ih.1 ih.2

/-- `_insertJob` splices the new job exactly at the boundary between the
prefix of jobs with priority at least the new job's and the rest. -/
theorem insertJob_eq_take_drop (j : QJob) (l : List QJob) :
    insertJob j l =
      l.takeWhile (fun x => decide (j.priority ≤ x.priority)) ++
        j :: l.dropWhile (fun x => decide (j.priority ≤ x.priority)) := by
  induction l with
  | nil => rfl
  | cons hd tl ih =>
    by_cases h : hd.priority < j.priority
    · have hp : decide (j.priority ≤ hd.priority) = false := by
        simp [not_le.mpr h]
      simp [insertJob, h, List.takeWhile_cons, List.dropWhile_cons, hp]
    · have hp : decide (j.priority ≤ hd.priority) = true := by
        simp [not_lt.mp h]
      simp [insertJob, h, List.takeWhile_cons, List.dropWhile_cons, hp, ih]

/-- Members of the kept prefix have priority at least the new job's. -/
theorem mem_takeWhile_ge (j : QJob) (l : List QJob) :
    ∀ x ∈ l.takeWhile (fun x => decide (j.priority ≤ x.priority)),
      j.priority ≤ x.priority := by
  induction l with
  | nil => simp
  | cons hd tl ih =>
    by_cases h : j.priority ≤ hd.priority
    · intro x hx
      rw [List.takeWhile_cons] at hx
      simp only [decide_eq_true_eq, if_pos h] at hx
      rcases List.mem_cons.mp hx with rfl | hx
      · exact h
      · exact ih x hx
    · intro x hx
      rw [List.takeWhile_cons] at hx
      simp [h] at hx

/-- In a priority-sorted queue every member of the dropped suffix has
priority strictly below the new job's. -/
theorem mem_dropWhile_lt (j : QJob) (l : List QJob) (hs : l.Pairwise jobR) :
    ∀ x ∈ l.dropWhile (fun x => decide (j.priority ≤ x.priority)),
      x.priority < j.priority := by
  induction l with
  | nil => simp
  | cons hd tl ih =>
    rcases List.pairwise_cons.mp hs with ⟨hhd, htl⟩
    by_cases h : j.priority ≤ hd.priority
    · intro x hx
      rw [List.dropWhile_cons] at hx
      simp only [decide_eq_true_eq, if_pos h] at hx
      exact ih htl x hx
    · intro x hx
      rw [List.dropWhile_cons] at hx
      simp only [decide_eq_true_eq, if_neg h] at hx
      rcases List.mem_cons.mp hx with rfl | hx
      · exact not_le.mp h
      · rcases hhd x hx with h1 | ⟨h1, _⟩
        · exact h1.trans (not_le.mp h)
        · rw [← h1]
          exact not_le.mp h

/-- `_insertJob` keeps the queue ordered by priority-then-FIFO, provided
the new job's insertion sequence number is fresh among equal priorities. -/
theorem pairwise_insertJob (j : QJob) (l : List QJob)
    (hs : l.Pairwise jobR)
    (hf : ∀ x ∈ l, x.priority = j.priority → x.seq < j.seq) :
    (insertJob j l).Pairwise jobR := by
  induction l with
  | nil => simp [insertJob, jobR]
  | cons hd tl ih =>
    rcases List.pairwise_cons.mp hs with ⟨hhd, htl⟩
    by_cases h : hd.priority < j.priority
    · simp only [insertJob, if_pos h]
      refine List.pairwise_cons.mpr ⟨?_, hs⟩
      intro y hy
      rcases List.mem_cons.mp hy with rfl | hy
      · exact Or.inl h
      · rcases hhd y hy with h1 | ⟨h1, _⟩
        · exact Or.inl (h1.trans h)
        · exact Or.inl (h1 ▸ h)
    · simp only [insertJob, if_neg h]
      refine List.pairwise_cons.mpr
        ⟨?_, ih htl (fun x hx h2 => hf x (List.mem_cons_of_mem hd hx) h2)⟩
      intro y hy
      rcases mem_insertJob.mp hy with rfl | hy
      · rcases lt_or_eq_of_le (not_lt.mp h) with hlt | heq
        · exact Or.inl hlt
        · exact Or.inr ⟨heq.symm,
            hf hd (List.mem_cons_self hd tl) heq.symm⟩
      · exact hhd y hy

/-- The job returned by the dispatch scan is dispatch-maximal: every other
pending job in the queue is behind it in priority-then-FIFO order. -/
theorem find_pending_first {l : List QJob} {j0 : QJob}
    (hs : l.Pairwise jobR)
    (hfind : firstPending l = some j0) :
    ∀ k ∈ l, k.status = JStatus.pending → k = j0 ∨ jobR j0 k := by
  induction l with
  | nil => simp [firstPending] at hfind
  | cons hd tl ih =>
    rcases List.pairwise_cons.mp hs with ⟨hhd, htl⟩
    by_cases hp : hd.status = JStatus.pending
    · have heq : j0 = hd := by
        unfold firstPending at hfind
        rw [List.find?_cons_of_pos _ (by simp [hp])] at hfind
        exact (Option.some.inj hfind).symm
      intro k hk hkp
      rcases List.mem_cons.mp hk with rfl | hk
      · exact Or.inl heq.symm
      · exact Or.inr (heq ▸ hhd k hk)
    · have hfind2 : firstPending tl = some j0 := by
        unfold firstPending at hfind ⊢
        rwa [List.find?_cons_of_neg _ (by simp [hp])] at hfind
      intro k hk hkp
      rcases List.mem_cons.mp hk with rfl | hk
      · exact absurd hkp hp
      · exact ih htl hfind2 k hk hkp

/-- While both debounce timers are pending, the `first` branch of
`checkResponse` ignores every sample: the above-threshold branch is blocked
by the confirm-timer guard and the below-threshold branch by the truthy
cancel-timer variable. -/
theorem checkResponseFirst_frozen (cfg : BConfig) (t v : Nat) (st : BState)
    (h1 : st.first = true)
    (h2 : timerPending st.timeoutForStartSampling = true)
    (h3 : timerPending st.timeoutForCancelSamplingTimeout = true) :
    checkResponseFirst cfg t v st = st := by
  obtain ⟨tfss, tfcst, cand, fi, base, msgs⟩ := st
  cases tfss with
  | none => simp [timerPending] at h2
  | some tm =>
    cases tfcst with
    | none => simp [timerPending] at h3
    | some tm2 =>
      have hf : tm.fired = false := by simpa [timerPending] using h2
      simp only at h1
      simp [checkResponseFirst, tfssReusable, h1, hf]

/-- While both timers are pending and neither is due yet, advancing the
clock does nothing. -/
theorem advanceTo_frozen (st : BState) (t : Nat)
    (h2 : timerPending st.timeoutForStartSampling = true)
    (h3 : timerPending st.timeoutForCancelSamplingTimeout = true)
    (hct : t < confirmDeadline st)
    (hxt : t < cancelDeadline st.timeoutForCancelSamplingTimeout) :
    advanceTo st t = st := by
  obtain ⟨tfss, tfcst, cand, fi, base, msgs⟩ := st
  cases tfss with
  | none => simp [timerPending] at h2
  | some tm =>
    cases tfcst with
    | none => simp [timerPending] at h3
    | some tm2 =>
      simp only [confirmDeadline] at hct
      simp only [cancelDeadline] at hxt
      unfold advanceTo
      rw [if_neg, if_neg]
      · intro hc
        exact absurd hc.2 (not_le.mpr hxt)
      · intro hc
        exact absurd hc.2.1 (not_le.mpr hct)

/-- While both timers are pending with every sample arriving before both
deadlines, the whole stream is ignored. -/
theorem runFrom_frozen (cfg : BConfig) (st : BState)
    (samples : List (Nat × Nat))
    (h1 : st.first = true)
    (h2 : timerPending st.timeoutForStartSampling = true)
    (h3 : timerPending st.timeoutForCancelSamplingTimeout = true)
    (hbc : ∀ p ∈ samples, p.1 < confirmDeadline st)
    (hbx : ∀ p ∈ samples,
      p.1 < cancelDeadline st.timeoutForCancelSamplingTimeout) :
    runFrom cfg st samples = st := by
  induction samples with
  | nil => rfl
  | cons p rest ih =>
    unfold runFrom
    rw [List.foldl_cons]
    rw [advanceTo_frozen st p.1 h2 h3 (hbc p (List.mem_cons_self p rest))
        (hbx p (List.mem_cons_self p rest)),
      checkResponseFirst_frozen cfg p.1 p.2 st h1 h2 h3]
    exact ih (fun q hq => hbc q (List.mem_cons_of_mem p hq))
      (fun q hq => hbx q (List.mem_cons_of_mem p hq))

/-- When the cancel-timer is due strictly before the confirm-timer, letting
the timers run fires the cancel-timer: the confirm-timer is cleared and
`baseline_stop` is emitted. -/
theorem finishB_cancel_first (st : BState)
    (h2 : timerPending st.timeoutForStartSampling = true)
    (h3 : timerPending st.timeoutForCancelSamplingTimeout = true)
    (hxc : cancelDeadline st.timeoutForCancelSamplingTimeout < confirmDeadline st) :
    finishB st = fireCancel st := by
  unfold finishB
  rw [if_neg, if_pos h3]
  intro hc
  rcases hc.2 with hb | hb
  · rw [h3] at hb
    simp at hb
  · exact absurd hb (not_le.mpr hxc)

/-- When the confirm-timer is due no later than the cancel-timer, letting
the timers run fires the confirm-timer first (Node fires due timers in
deadline order, insertion order on ties, and the confirm-timer is always
the earlier-scheduled one when both are pending): the baseline confirms
with the captured candidate and `baseline_ok` is emitted, after which the
still-pending cancel-timer fires its `baseline_stop`. -/
theorem finishB_confirm_first (st : BState)
    (h2 : timerPending st.timeoutForStartSampling = true)
    (h3 : timerPending st.timeoutForCancelSamplingTimeout = true)
    (hcx : confirmDeadline st ≤ cancelDeadline st.timeoutForCancelSamplingTimeout) :
    finishB st = fireCancel (fireConfirm st) := by
  unfold finishB
  rw [if_pos ⟨h2, Or.inr hcx⟩]
  show (if timerPending (fireConfirm st).timeoutForCancelSamplingTimeout = true
      then fireCancel (fireConfirm st) else fireConfirm st) =
    fireCancel (fireConfirm st)
  rw [if_pos (show timerPending
    (fireConfirm st).timeoutForCancelSamplingTimeout = true from h3)]

/-! ## Claim theorems -/

/-- C1 (counterexample): in the stream `exC1Samples` under `exC1Cfg`, an
above-threshold sample (t=0) schedules the confirm-timer and the single
below-threshold sample (t=1) is interrupted by above-threshold samples
well within `baselineTimeNotSet` (`everyDropInterrupted` holds), so by the
claim the baseline must confirm and a below-threshold run interrupted by
an above-threshold sample must never abort confirmation.  The code instead
ignores the above-threshold samples at t=2 and t=3 (the pending
confirm-timer blocks the branch that would cancel the cancel-timer), the
cancel-timer fires at t=4, and the run ends with `baseline_stop` emitted
and the baseline never confirmed (`first` still true). -/
theorem C1_counterexample :
    (runBaseline exC1Cfg exC1Samples).first = true
      ∧ (runBaseline exC1Cfg exC1Samples).msgs = [BMsg.baselineStop]
      ∧ exC1Samples.any (fun p => decide (exC1Cfg.baseline < p.2)) = true
      ∧ everyDropInterrupted exC1Cfg exC1Samples = true := by decide

/-- C1 (amended): an above-threshold sample cancels a pending cancel-timer
only while no confirm-timer is pending; while both timers are pending every
sample (above or below threshold) is ignored, so the outcome is decided by
the two deadlines alone: a cancel-timer due strictly before the
confirm-timer aborts confirmation (`baseline_stop`, confirm-timer
discarded) regardless of intervening above-threshold samples, while a
confirm-timer whose `baselineTimeSetting` elapses no later than the cancel
deadline confirms the baseline with the captured candidate (`baseline_ok`,
`first = false`) — after which the still-pending cancel-timer fires its
`baseline_stop`.  Conjuncts: (1) with both timers pending, a sample leaves
the state unchanged; (2)–(3) with no confirm-timer pending, an
above-threshold sample clears the cancel-timer and schedules a
confirm-timer; (4)–(5) from a both-pending state `st` whose cancel
deadline precedes the confirm deadline, any sample stream arriving before
the cancel deadline ends with `baseline_stop` emitted and the baseline
unconfirmed; (6)–(8) from a both-pending state `st3` whose confirm
deadline is no later than the cancel deadline, any sample stream arriving
before the confirm deadline ends confirmed: `first = false`, the baseline
set to the captured candidate, and `baseline_ok` emitted (followed by the
cancel-timer's trailing `baseline_stop`). -/
theorem C1_amended_cancel_needs_no_confirm_pending (cfg : BConfig)
    (st st2 st3 : BState) (t v w : Nat)
    (samples samples2 : List (Nat × Nat))
    (hfirst : st.first = true)
    (hconf : timerPending st.timeoutForStartSampling = true)
    (hcanc : timerPending st.timeoutForCancelSamplingTimeout = true)
    (hfirst2 : st2.first = true)
    (hconf2 : tfssReusable st2.timeoutForStartSampling = true)
    (hv : cfg.baseline < v)
    (hxc : cancelDeadline st.timeoutForCancelSamplingTimeout < confirmDeadline st)
    (hsamples : ∀ p ∈ samples,
      p.1 < cancelDeadline st.timeoutForCancelSamplingTimeout)
    (hfirst3 : st3.first = true)
    (hconf3 : timerPending st3.timeoutForStartSampling = true)
    (hcanc3 : timerPending st3.timeoutForCancelSamplingTimeout = true)
    (hcx : confirmDeadline st3 ≤
      cancelDeadline st3.timeoutForCancelSamplingTimeout)
    (hsamples3 : ∀ p ∈ samples2, p.1 < confirmDeadline st3) :
    checkResponseFirst cfg t w st = st
      ∧ (checkResponseFirst cfg t v st2).timeoutForCancelSamplingTimeout = none
      ∧ timerPending
          (checkResponseFirst cfg t v st2).timeoutForStartSampling = true
      ∧ (runBaselineFrom cfg st samples).first = true
      ∧ (runBaselineFrom cfg st samples).msgs = st.msgs ++ [BMsg.baselineStop]
      ∧ (runBaselineFrom cfg st3 samples2).first = false
      ∧ (runBaselineFrom cfg st3 samples2).baseline = st3.candidate
      ∧ (runBaselineFrom cfg st3 samples2).msgs =
          st3.msgs ++ [BMsg.baselineOk, BMsg.baselineStop] := by
  have hrun : runBaselineFrom cfg st samples = fireCancel st := by
    unfold runBaselineFrom
    rw [runFrom_frozen cfg st samples hfirst hconf hcanc
        (fun p hp => (hsamples p hp).trans hxc) hsamples,
      finishB_cancel_first st hconf hcanc hxc]
  have hrun3 : runBaselineFrom cfg st3 samples2 =
      fireCancel (fireConfirm st3) := by
    unfold runBaselineFrom
    rw [runFrom_frozen cfg st3 samples2 hfirst3 hconf3 hcanc3 hsamples3
        (fun p hp => (hsamples3 p hp).trans_le hcx),
      finishB_confirm_first st3 hconf3 hcanc3 hcx]
  refine ⟨checkResponseFirst_frozen cfg t w st hfirst hconf hcanc,
    ?_, ?_, ?_, ?_, ?_, ?_, ?_⟩
  · simp [checkResponseFirst, hfirst2, hv, hconf2]
  · simp [checkResponseFirst, hfirst2, hv, hconf2, timerPending]
  · rw [hrun]
    simpa [fireCancel] using hfirst
  · rw [hrun]
    simp [fireCancel]
  · rw [hrun3]
    simp [fireCancel, fireConfirm]
  · rw [hrun3]
    simp [fireCancel, fireConfirm]
  · rw [hrun3]
    simp [fireCancel, fireConfirm]

/-- Witness for the C1 amended theorem at concrete frozen states:
an abort state with confirm-timer due at 10 and cancel-timer due at 4
(candidate 200), a second state with only a cancel-timer pending, and a
confirm state with confirm-timer due at 3 and cancel-timer due at 4;
samples at t=1 and t=2 throughout. -/
theorem C1_amended_witness :
    ((⟨some ⟨10, false⟩, some ⟨4, false⟩, 200, true, 0, []⟩ : BState).first = true
        ∧ timerPending (⟨some ⟨10, false⟩, some ⟨4, false⟩, 200, true, 0,
            []⟩ : BState).timeoutForStartSampling = true
        ∧ timerPending (⟨some ⟨10, false⟩, some ⟨4, false⟩, 200, true, 0,
            []⟩ : BState).timeoutForCancelSamplingTimeout = true
        ∧ (⟨none, some ⟨4, false⟩, 0, true, 0, []⟩ : BState).first = true
        ∧ tfssReusable (⟨none, some ⟨4, false⟩, 0, true, 0,
            []⟩ : BState).timeoutForStartSampling = true
        ∧ exC1Cfg.baseline < 300
        ∧ cancelDeadline (⟨some ⟨10, false⟩, some ⟨4, false⟩, 200, true, 0,
              []⟩ : BState).timeoutForCancelSamplingTimeout <
            confirmDeadline (⟨some ⟨10, false⟩, some ⟨4, false⟩, 200, true, 0,
              []⟩ : BState)
        ∧ (∀ p ∈ [((1 : Nat), (300 : Nat)), (2, 50)],
            p.1 < cancelDeadline (⟨some ⟨10, false⟩, some ⟨4, false⟩, 200,
              true, 0, []⟩ : BState).timeoutForCancelSamplingTimeout)
        ∧ (⟨some ⟨3, false⟩, some ⟨4, false⟩, 200, true, 0,
            []⟩ : BState).first = true
        ∧ timerPending (⟨some ⟨3, false⟩, some ⟨4, false⟩, 200, true, 0,
            []⟩ : BState).timeoutForStartSampling = true
        ∧ timerPending (⟨some ⟨3, false⟩, some ⟨4, false⟩, 200, true, 0,
            []⟩ : BState).timeoutForCancelSamplingTimeout = true
        ∧ confirmDeadline (⟨some ⟨3, false⟩, some ⟨4, false⟩, 200, true, 0,
              []⟩ : BState) ≤
            cancelDeadline (⟨some ⟨3, false⟩, some ⟨4, false⟩, 200, true, 0,
              []⟩ : BState).timeoutForCancelSamplingTimeout
        ∧ (∀ p ∈ [((1 : Nat), (50 : Nat)), (2, 300)],
            p.1 < confirmDeadline (⟨some ⟨3, false⟩, some ⟨4, false⟩, 200,
              true, 0, []⟩ : BState)))
      ∧ (checkResponseFirst exC1Cfg 2 50
            ⟨some ⟨10, false⟩, some ⟨4, false⟩, 200, true, 0, []⟩ =
            ⟨some ⟨10, false⟩, some ⟨4, false⟩, 200, true, 0, []⟩
        ∧ (checkResponseFirst exC1Cfg 2 300
            ⟨none, some ⟨4, false⟩, 0, true, 0,
              []⟩).timeoutForCancelSamplingTimeout = none
        ∧ timerPending (checkResponseFirst exC1Cfg 2 300
            ⟨none, some ⟨4, false⟩, 0, true, 0,
              []⟩).timeoutForStartSampling = true
        ∧ (runBaselineFrom exC1Cfg
            ⟨some ⟨10, false⟩, some ⟨4, false⟩, 200, true, 0, []⟩
            [(1, 300), (2, 50)]).first = true
        ∧ (runBaselineFrom exC1Cfg
            ⟨some ⟨10, false⟩, some ⟨4, false⟩, 200, true, 0, []⟩
            [(1, 300), (2, 50)]).msgs =
            (⟨some ⟨10, false⟩, some ⟨4, false⟩, 200, true, 0,
              []⟩ : BState).msgs ++ [BMsg.baselineStop]
        ∧ (runBaselineFrom exC1Cfg
            ⟨some ⟨3, false⟩, some ⟨4, false⟩, 200, true, 0, []⟩
            [(1, 50), (2, 300)]).first = false
        ∧ (runBaselineFrom exC1Cfg
            ⟨some ⟨3, false⟩, some ⟨4, false⟩, 200, true, 0, []⟩
            [(1, 50), (2, 300)]).baseline =
            (⟨some ⟨3, false⟩, some ⟨4, false⟩, 200, true, 0,
              []⟩ : BState).candidate
        ∧ (runBaselineFrom exC1Cfg
            ⟨some ⟨3, false⟩, some ⟨4, false⟩, 200, true, 0, []⟩
            [(1, 50), (2, 300)]).msgs =
            (⟨some ⟨3, false⟩, some ⟨4, false⟩, 200, true, 0,
              []⟩ : BState).msgs ++ [BMsg.baselineOk, BMsg.baselineStop]) :=
  ⟨by decide,
    C1_amended_cancel_needs_no_confirm_pending exC1Cfg
      ⟨some ⟨10, false⟩, some ⟨4, false⟩, 200, true, 0, []⟩
      ⟨none, some ⟨4, false⟩, 0, true, 0, []⟩
      ⟨some ⟨3, false⟩, some ⟨4, false⟩, 200, true, 0, []⟩
      2 300 50 [(1, 300), (2, 50)] [(1, 50), (2, 300)]
      (by decide) (by decide) (by decide) (by decide) (by decide) (by decide)
      (by decide) (by decide) (by decide) (by decide) (by decide) (by decide)
      (by decide)⟩

/-- C2 (code bug): with `retryDelay = 1000` and `maxAttempts = 2`, a job
whose handler rejects immediately is attempted twice within the same
event-loop turn (`attemptLog = [0, 0]`): the `finally` block of `_process`
re-dispatches the job the moment it is set back to pending, even though the
retry path also registered the exponential-backoff scan for t = 1000
(`scheduledScans = [1000]`), so the claimed inter-attempt delay of
`retryDelay × 2^(attempts-1)` is never honoured.  The remainder of the
claim is validated: exactly `maxAttempts` attempts are made, after which
the job is marked failed and removed from the queue. -/
theorem C2_backoff_not_awaited :
    (failRun 2 1000).attemptLog = [0, 0]
      ∧ (failRun 2 1000).attempts = 2
      ∧ (failRun 2 1000).status = JStatus.failed
      ∧ (failRun 2 1000).inQueue = false
      ∧ (failRun 2 1000).scheduledScans = [1000] := by decide

/-- C7: in every state reachable from a fresh queue by queue operations
(add, dispatch, handler completion/permanent failure, retry, pause,
resume), the number of jobs in processing status never exceeds the
configured concurrency limit. -/
theorem C7_processing_never_exceeds_concurrency (c : Nat) (s : QState)
    (h : QReach c s) : processingCount s ≤ c :=
  le_of_eq_of_le (qreach_inv h).1 (qreach_inv h).2

/-- Witness for C7: the state reached by adding one job and dispatching it
on a queue with concurrency 1 has one processing job, within the limit. -/
theorem C7_witness :
    processingCount ⟨[⟨0, 0, 0, JStatus.processing⟩], 1, false⟩ ≤ 1 := by
  have h1 : QStep 1 initQState ⟨[⟨0, 0, 0, JStatus.pending⟩], 0, false⟩ :=
    QStep.add initQState ⟨0, 0, 0, JStatus.pending⟩ rfl
  have h2 : QStep 1 ⟨[⟨0, 0, 0, JStatus.pending⟩], 0, false⟩
      ⟨[⟨0, 0, 0, JStatus.processing⟩], 1, false⟩ :=
    QStep.dispatch [] [] ⟨0, 0, 0, JStatus.pending⟩ 0 Nat.zero_lt_one rfl
  exact C7_processing_never_exceeds_concurrency 1 _
    (QReach.step (QReach.step QReach.init h1) h2)

/-- C8: a ready job (immediately enqueued or delayed-then-ready) is
inserted by `_insertJob` exactly before the first queued job of strictly
lower priority — in a priority-sorted queue, after all jobs of equal or
higher priority (conjuncts 1–3) — the ordering invariant is preserved
(conjunct 4), and the dispatch scan picks a pending job that precedes every
other pending job in priority-then-FIFO order: higher priority first, equal
priority in insertion order (conjunct 5). -/
theorem C8_priority_insertion_and_dispatch (j j0 : QJob) (l : List QJob)
    (hs : l.Pairwise jobR)
    (hf : ∀ x ∈ l, x.priority = j.priority → x.seq < j.seq)
    (hfind : firstPending (insertJob j l) = some j0) :
    insertJob j l =
        l.takeWhile (fun x => decide (j.priority ≤ x.priority)) ++
          j :: l.dropWhile (fun x => decide (j.priority ≤ x.priority))
      ∧ (∀ x ∈ l.takeWhile (fun x => decide (j.priority ≤ x.priority)),
          j.priority ≤ x.priority)
      ∧ (∀ x ∈ l.dropWhile (fun x => decide (j.priority ≤ x.priority)),
          x.priority < j.priority)
      ∧ (insertJob j l).Pairwise jobR
      ∧ (∀ k ∈ insertJob j l, k.status = JStatus.pending →
          k = j0 ∨ jobR j0 k) :=
  ⟨insertJob_eq_take_drop j l, mem_takeWhile_ge j l, mem_dropWhile_lt j l hs,
    pairwise_insertJob j l hs hf,
    find_pending_first (pairwise_insertJob j l hs hf) hfind⟩

/-- Witness for C8: inserting a priority-1 job behind a queued priority-5
job; the dispatch scan then picks the priority-5 job first. -/
theorem C8_witness :
    (List.Pairwise jobR [⟨1, 5, 0, JStatus.pending⟩]
        ∧ (∀ x ∈ [(⟨1, 5, 0, JStatus.pending⟩ : QJob)],
            x.priority = (⟨2, 1, 1, JStatus.pending⟩ : QJob).priority →
              x.seq < (⟨2, 1, 1, JStatus.pending⟩ : QJob).seq)
        ∧ firstPending (insertJob ⟨2, 1, 1, JStatus.pending⟩
            [⟨1, 5, 0, JStatus.pending⟩]) = some ⟨1, 5, 0, JStatus.pending⟩)
      ∧ (insertJob (⟨2, 1, 1, JStatus.pending⟩ : QJob)
            [⟨1, 5, 0, JStatus.pending⟩] =
          List.takeWhile
              (fun x => decide ((⟨2, 1, 1, JStatus.pending⟩ : QJob).priority ≤
                x.priority)) [⟨1, 5, 0, JStatus.pending⟩] ++
            (⟨2, 1, 1, JStatus.pending⟩ : QJob) ::
              List.dropWhile
                (fun x => decide ((⟨2, 1, 1,
                  JStatus.pending⟩ : QJob).priority ≤ x.priority))
                [⟨1, 5, 0, JStatus.pending⟩]
        ∧ (∀ x ∈ List.takeWhile
              (fun x => decide ((⟨2, 1, 1, JStatus.pending⟩ : QJob).priority ≤
                x.priority)) [(⟨1, 5, 0, JStatus.pending⟩ : QJob)],
            (⟨2, 1, 1, JStatus.pending⟩ : QJob).priority ≤ x.priority)
        ∧ (∀ x ∈ List.dropWhile
              (fun x => decide ((⟨2, 1, 1, JStatus.pending⟩ : QJob).priority ≤
                x.priority)) [(⟨1, 5, 0, JStatus.pending⟩ : QJob)],
            x.priority < (⟨2, 1, 1, JStatus.pending⟩ : QJob).priority)
        ∧ (insertJob (⟨2, 1, 1, JStatus.pending⟩ : QJob)
            [⟨1, 5, 0, JStatus.pending⟩]).Pairwise jobR
        ∧ (∀ k ∈ insertJob (⟨2, 1, 1, JStatus.pending⟩ : QJob)
              [⟨1, 5, 0, JStatus.pending⟩],
            k.status = JStatus.pending →
              k = (⟨1, 5, 0, JStatus.pending⟩ : QJob) ∨
                jobR ⟨1, 5, 0, JStatus.pending⟩ k)) :=
  ⟨⟨by simp [jobR], by decide, by decide⟩,
    C8_priority_insertion_and_dispatch ⟨2, 1, 1, JStatus.pending⟩
      ⟨1, 5, 0, JStatus.pending⟩ [⟨1, 5, 0, JStatus.pending⟩]
      (by simp [jobR]) (by decide) (by decide)⟩

/-- C3 (counterexample): the overall-deadline callback with no device path
found — one of the teardown-triggering paths the claim lists
(device-not-found) — resets the session state but emits zero status
messages to the channel/display, refuting "exactly one status message on
every teardown-triggering path".  (Only the persisted error record is
produced.) -/
theorem C3_counterexample :
    emitCount (deadlineTimerEvents false false) = 0
      ∧ TEvent.resetState ∈ deadlineTimerEvents false false
      ∧ TEvent.recordError 2 "No device Found" ∈ deadlineTimerEvents false false := by
  decide

/-- C3 (amended): the overall-deadline path with a known device path and
the `startMeasure` deadline path emit exactly one status message
(`timeout`), and emit it before the state reset; the device-not-found,
write-error and enumeration-error teardown paths emit no channel/display
message at all (they only append the persisted error record); the explicit
stop (`measureStop`) emits only `app_hide` and performs no session-state
reset. -/
theorem C3_amended_teardown_emissions :
    (∀ p : Bool, emitCount (deadlineTimerEvents true p) = 1
        ∧ (deadlineTimerEvents true p).head? = some (TEvent.emit OutMsg.timeout)
        ∧ TEvent.resetState ∈ deadlineTimerEvents true p)
      ∧ (∀ p : Bool, emitCount (deadlineTimerEvents false p) = 0
          ∧ TEvent.resetState ∈ deadlineTimerEvents false p)
      ∧ (∀ c : Cmd, emitCount (sendCommandEvents true c true) = 0
          ∧ TEvent.resetState ∈ sendCommandEvents true c true)
      ∧ (∀ p : Bool, emitCount (enumErrorEvents p) = 0
          ∧ TEvent.resetState ∈ enumErrorEvents p)
      ∧ (∀ p : Bool, emitCount (startMeasureTimeoutEvents p) = 1
          ∧ (startMeasureTimeoutEvents p).head? =
              some (TEvent.emit OutMsg.timeout)
          ∧ TEvent.resetState ∈ startMeasureTimeoutEvents p)
      ∧ (∀ p : Bool, (measureStopCommandEvents p).filter isEmit =
            [TEvent.emit OutMsg.appHide]
          ∧ TEvent.resetState ∉ measureStopCommandEvents p) := by
  refine ⟨?_, ?_, ?_, ?_, ?_, ?_⟩
  · intro p; cases p <;> decide
  · intro p; cases p <;> decide
  · intro c; cases c <;> decide
  · intro p; cases p <;> decide
  · intro p; cases p <;> decide
  · intro p; cases p <;> decide

/-- C4 (counterexample): when the measurement window elapses with an empty
accepted-sample array, the code still emits `measure_finish` (with the
`NaN` average modelled as `none`) and records no error at all — in
particular no NoOrInvalidData record (code 7) — refuting the claimed fatal
`NoDataError`. -/
theorem C4_counterexample :
    (measureWindowElapsedEvents [] 0 true).filter isEmit =
        [TEvent.emit (OutMsg.measureFinish none 0 [])]
      ∧ (measureWindowElapsedEvents [] 0 true).all
          (fun e => !(isRecordError e)) = true := by
  constructor
  · rfl
  · rfl

/-- C4 (amended): whatever the accepted-sample array is — empty included —
the window-elapsed callback always emits `measure_finish` followed by the
no-error teardown, with the average `NaN` (`none`) exactly when the array
is empty; no path of this callback records an error (the `"00"` flag is
hardcoded, so `checkError` never reports one, and error code 7 exists only
as an unused entry of the teardown error map). -/
theorem C4_amended_empty_window_still_finishes (l : List ℚ) (m : ℚ)
    (p : Bool) :
    measureWindowElapsedEvents l m p =
        TEvent.emit (OutMsg.measureFinish (avgOf l) m l) ::
          endAlgorithmEvents none "" p
      ∧ avgOf [] = none
      ∧ (measureWindowElapsedEvents l m p).all
          (fun e => !(isRecordError e)) = true := by
  refine ⟨rfl, rfl, ?_⟩
  cases p <;> rfl

/-- C5: the emitted weight is computed from the decoded sample by exact
rational arithmetic with one explicit half-up rounding step,
`round(|baseline − v| × coefficient, precision)` (conjunct 1, using
`|(b − v)·c| = |b − v|·c` for a nonnegative coefficient), it is always
nonnegative (conjunct 2), and the spec scenario baseline 3500,
coefficient 0.000123, sample 3000 yields 0.06 at 2-decimal rounding
(conjunct 3). -/
theorem C5_weight_exact_rounding (baseline value : Nat) (coef : ℚ) (dp : Nat)
    (hc : 0 ≤ coef) :
    computeWeight baseline coef dp value =
        bigRoundHalfUp dp (|(baseline : ℚ) - (value : ℚ)| * coef)
      ∧ 0 ≤ computeWeight baseline coef dp value
      ∧ computeWeight 3500 (123 / 1000000) 2 3000 = 6 / 100 := by
  refine ⟨?_, ?_, ?_⟩
  · unfold computeWeight
    rw [abs_mul, abs_of_nonneg hc]
  · unfold computeWeight bigRoundHalfUp
    rw [if_pos (abs_nonneg _)]
    apply div_nonneg
    · have h1 : (0 : ℤ) ≤
          ⌊|((baseline : ℚ) - (value : ℚ)) * coef| * 10 ^ dp + 1 / 2⌋ := by
        apply Int.le_floor.mpr
        push_cast
        positivity
      exact_mod_cast h1
    · positivity
  · unfold computeWeight bigRoundHalfUp
    norm_num [abs_of_nonneg]

/-- Witness for C5 at the spec scenario. -/
theorem C5_witness :
    ((0 : ℚ) ≤ 123 / 1000000)
      ∧ (computeWeight 3500 (123 / 1000000) 2 3000 =
            bigRoundHalfUp 2 (|((3500 : Nat) : ℚ) - ((3000 : Nat) : ℚ)| *
              (123 / 1000000))
          ∧ 0 ≤ computeWeight 3500 (123 / 1000000) 2 3000
          ∧ computeWeight 3500 (123 / 1000000) 2 3000 = 6 / 100) :=
  ⟨by norm_num, C5_weight_exact_rounding 3500 3000 (123 / 1000000) 2
    (by norm_num)⟩

/-- C6 (counterexample): with the capture window open
(`startTimeoutMeasurement` set, `stopMeasurement` clear), the decoded
sample 7565 yields weight 0.5, which is strictly below the ceiling of 60,
yet the code discards it without appending to the sample array and without
emitting `measure_received`, because 0.5 does not exceed `config.trigger`
(0.8) — refuting "every processed sample whose computed weight is strictly
below ceilingWeight is appended ... and emits measure_received". -/
theorem C6_counterexample :
    checkResponseMeasure exC6Cfg exC6St 7565 = (exC6St, [])
      ∧ stepWeight exC6Cfg 7565 = 1 / 2
      ∧ stepWeight exC6Cfg 7565 < exC6Cfg.ceilWeight
      ∧ exC6St.startTimeoutMeasurement = true
      ∧ exC6St.stopMeasurement = false
      ∧ (checkResponseMeasure exC6Cfg exC6St 7565).1.weightArray = [] := by
  have hw : stepWeight exC6Cfg 7565 = 1 / 2 := by
    unfold stepWeight exC6Cfg computeWeight bigRoundHalfUp
    norm_num [abs_of_nonneg]
  have hstep : checkResponseMeasure exC6Cfg exC6St 7565 = (exC6St, []) := by
    unfold checkResponseMeasure
    rw [if_neg]
    rw [hw]
    unfold exC6Cfg
    norm_num
  refine ⟨hstep, hw, ?_, rfl, rfl, ?_⟩
  · rw [hw]
    unfold exC6Cfg
    norm_num
  · rw [hstep]
    rfl

/-- C6 (amended): while the capture window is open, a processed sample is
appended to the sample array, bumps the running maximum and emits
`measure_received` exactly when its weight lies strictly between
`config.trigger` and `config.ceilWeight`; a sample whose weight is at or
above the ceiling, or at or below the trigger, leaves the sample array and
the emission list empty and does not close the window. -/
theorem C6_amended_window_accept_band (cfg : MCfg) (st : MeasState)
    (v1 v2 : Nat)
    (hopen : st.stopMeasurement = false)
    (h1a : cfg.trigger < stepWeight cfg v1)
    (h1b : stepWeight cfg v1 < cfg.ceilWeight)
    (h2 : cfg.ceilWeight ≤ stepWeight cfg v2 ∨ stepWeight cfg v2 ≤ cfg.trigger) :
    checkResponseMeasure cfg st v1 =
        ({ startTimeoutMeasurement := true
           stopMeasurement := st.stopMeasurement
           weightArray := st.weightArray ++ [stepWeight cfg v1]
           weightMax := max st.weightMax (stepWeight cfg v1) },
          [OutMsg.measureReceived (stepWeight cfg v1)])
      ∧ (checkResponseMeasure cfg st v2).1.weightArray = st.weightArray
      ∧ (checkResponseMeasure cfg st v2).2 = []
      ∧ (checkResponseMeasure cfg st v2).1.stopMeasurement = false := by
  refine ⟨?_, ?_⟩
  · rcases lt_or_le st.weightMax (stepWeight cfg v1) with hm | hm
    · simp [checkResponseMeasure, h1a, h1b, hopen, hm, max_eq_right hm.le]
    · simp [checkResponseMeasure, h1a, h1b, hopen, not_lt.mpr hm,
        max_eq_left hm]
  · by_cases ht : cfg.trigger < stepWeight cfg v2
    · have hcl : cfg.ceilWeight ≤ stepWeight cfg v2 := by
        rcases h2 with h | h
        · exact h
        · exact absurd ht (not_lt.mpr h)
      unfold checkResponseMeasure
      rw [if_pos ht, if_neg]
      · exact ⟨rfl, rfl, by simpa using hopen⟩
      · intro hcon
        exact absurd hcon.1 (not_lt.mpr hcl)
    · unfold checkResponseMeasure
      rw [if_neg ht]
      exact ⟨rfl, rfl, hopen⟩

/-- Witness for the C6 amended theorem: under `exC6Cfg` with the window
open, sample 10500 (weight 0.86, inside the band) is accepted and sample
7565 (weight 0.5, at or below the trigger) is discarded. -/
theorem C6_amended_witness :
    (exC6St.stopMeasurement = false
        ∧ exC6Cfg.trigger < stepWeight exC6Cfg 10500
        ∧ stepWeight exC6Cfg 10500 < exC6Cfg.ceilWeight
        ∧ (exC6Cfg.ceilWeight ≤ stepWeight exC6Cfg 7565 ∨
            stepWeight exC6Cfg 7565 ≤ exC6Cfg.trigger))
      ∧ (checkResponseMeasure exC6Cfg exC6St 10500 =
            ({ startTimeoutMeasurement := true
               stopMeasurement := exC6St.stopMeasurement
               weightArray := exC6St.weightArray ++ [stepWeight exC6Cfg 10500]
               weightMax := max exC6St.weightMax (stepWeight exC6Cfg 10500) },
              [OutMsg.measureReceived (stepWeight exC6Cfg 10500)])
          ∧ (checkResponseMeasure exC6Cfg exC6St 7565).1.weightArray =
              exC6St.weightArray
          ∧ (checkResponseMeasure exC6Cfg exC6St 7565).2 = []
          ∧ (checkResponseMeasure exC6Cfg exC6St 7565).1.stopMeasurement =
              false) :=
  ⟨⟨rfl,
    by unfold stepWeight exC6Cfg computeWeight bigRoundHalfUp
       norm_num [abs_of_nonneg],
    by unfold stepWeight exC6Cfg computeWeight bigRoundHalfUp
       norm_num [abs_of_nonneg],
    Or.inr (by unfold stepWeight exC6Cfg computeWeight bigRoundHalfUp
               norm_num [abs_of_nonneg])⟩,
    C6_amended_window_accept_band exC6Cfg exC6St 10500 7565 rfl
      (by unfold stepWeight exC6Cfg computeWeight bigRoundHalfUp
          norm_num [abs_of_nonneg])
      (by unfold stepWeight exC6Cfg computeWeight bigRoundHalfUp
          norm_num [abs_of_nonneg])
      (Or.inr (by unfold stepWeight exC6Cfg computeWeight bigRoundHalfUp
                  norm_num [abs_of_nonneg]))⟩

/-- C9 (counterexample): after `endAlgorithm` teardown (here with the
timeout error, code 6) the coefficient — claimed to be session-owned and
cleared on teardown — still holds the value read from the device, and
`weightMax` likewise survives, so session values from one measurement
cycle remain observable in the next. -/
theorem C9_counterexample :
    (endAlgorithmState (some 6) exC9Session).coef = 123 / 1000000
      ∧ ((123 : ℚ) / 1000000 ≠ 0)
      ∧ (endAlgorithmState (some 6) exC9Session).weightMax = 5 := by
  refine ⟨rfl, by norm_num, rfl⟩

/-- C9 (amended): every teardown through `endAlgorithm` resets
`first = true`, clears the measurement flags and the weight array, zeroes
the baseline and clears `measureStarted`; but the coefficient, `weightMax`,
`num` and `weight` are left untouched by every teardown path (`weightMax`
is only reset when the *next* baseline confirms), and the explicit-stop
path (`stopMeasure`) resets no session field at all. -/
theorem C9_amended_teardown_partial_reset (e : Option Nat)
    (st : SessionState) :
    (endAlgorithmState e st).first = true
      ∧ (endAlgorithmState e st).stopMeasurement = false
      ∧ (endAlgorithmState e st).startTimeoutMeasurement = false
      ∧ (endAlgorithmState e st).weightArray = []
      ∧ (endAlgorithmState e st).baseline = 0
      ∧ (endAlgorithmState e st).measureStarted = false
      ∧ (endAlgorithmState e st).coef = st.coef
      ∧ (endAlgorithmState e st).weightMax = st.weightMax
      ∧ (endAlgorithmState e st).num = st.num
      ∧ (endAlgorithmState e st).weight = st.weight
      ∧ (∀ p : Bool, TEvent.resetState ∉ stopMeasureEvents p) := by
  unfold endAlgorithmState
  by_cases h : e.isSome && st.portOpen <;> simp [h] <;> decide

/-- C10: `sendCommand` with no serial-port handle performs no write, runs
no teardown and raises no error — it only logs (conjunct 1, for every
command and either write outcome); consequently `startMeasure` with no
open port arms its deadline timer and emits its `measureSamplingOn` status
but delivers no command — in particular not `SamplingOn` — to the
instrument (conjuncts 2–5), so with the port closed no response frames can
arrive and the cycle can end only through the armed deadline timer. -/
theorem C10_no_port_no_write :
    (∀ c : Cmd, ∀ wf : Bool,
        sendCommandEvents false c wf = [TEvent.logPortNotOpened])
      ∧ startMeasureEvents false =
          [TEvent.scheduleDeadline, TEvent.emit OutMsg.measureSamplingOn,
            TEvent.logPortNotOpened]
      ∧ (startMeasureEvents false).all (fun e => !(isSendCmd e)) = true
      ∧ (startMeasureEvents false).all (fun e => !(isRecordError e)) = true
      ∧ TEvent.scheduleDeadline ∈ startMeasureEvents false := by
  refine ⟨?_, rfl, rfl, rfl, ?_⟩
  · intro c wf
    rfl
  · decide
